import Mathlib

/-!
Verification model of the css-pruner usage-classification and safe-removal
engine (src/core/css-parser.ts and src/core/pruner.ts, newest revisions).

Modelling conventions, stated once:

* Strings are Lean `String`s; the per-character scans of the TypeScript code
  (JavaScript regexes over ASCII selector text) are embedded as recursions
  over `List Char`.  JavaScript's `\s` class is modelled by `isWS`, which
  covers the ASCII whitespace characters; all inputs in scope are ASCII.
* The external css-tree library is not part of the repository.  Its parse
  result is modelled by the inductive `CNode` (Rule with a SelectorList
  prelude, @media Atrule, @keyframes Atrule); `parse` itself is a parameter
  `parseFn : String → Option (List CNode)` (`none` models a parse throw).
  For concrete end-to-end inputs, `parseFn` is instantiated with a lookup
  table holding the AST css-tree produces for exactly those strings.
  css-tree's `generate` is minifying: a Block serialises as braces around
  its minified content, selectors of a list are joined by commas, and an
  at-rule is at-keyword, space, prelude, block.  `walk` visits every node of
  the tree in pre-order: in particular it visits Rule nodes nested inside
  @media and @keyframes blocks.
* css-tree `List.forEach` passes `(data, item, list)` to its callback.  In
  `removeUnusedSelectors` (pruner.ts) the callback binds only the first
  parameter, so `walkWithContext` receives the AST *node* both as `node` and
  as `item`, and `list.remove(item)` is called with a plain AST node instead
  of a list item.  An AST node has no `prev`/`next` fields, so css-tree's
  `List.remove` throws (`item.prev !== null` is true for `undefined`, and
  dereferencing `undefined.next` raises a TypeError; the variant that checks
  truthiness instead hits the explicit "item doesn't belong to list" guard).
  Consequently the first scheduled structural removal aborts the structural
  strategy and the surrounding try/catch falls back to
  `removeUnusedSelectorsStringBased` on the original content.  The model
  captures this with `walkAttempts`: if the context walk would call
  `list.remove` anywhere, the fallback result is returned, otherwise the
  re-serialised (minified) tree.
* JavaScript regex membership tests of user-supplied `/…/` patterns are an
  external capability; they are modelled by an oracle parameter
  `rt : String → String → Bool` (`rt body sel` models
  `new RegExp(body).test(sel)`).  For the error-timing model, compilation is
  `compile : String → Option (String → Bool)` and `none` models the RegExp
  constructor throwing on a malformed pattern.
-/

/-- ASCII model of the JavaScript regex class `\s`. -/
def isWS (c : Char) : Bool :=
  c = ' ' || c = '\t' || c = '\n' || c = '\r' || c = '\x0b' || c = '\x0c'

/-- Head character of a class token: `[a-zA-Z_-]`. -/
def isHeadChar (c : Char) : Bool :=
  c.isAlpha || c = '_' || c = '-'

/-- Tail character of a class token: `[a-zA-Z0-9_-]`. -/
def isTailChar (c : Char) : Bool :=
  c.isAlphanum || c = '_' || c = '-'

/-- Is the first list a prefix of the second? -/
def isPrefixChars : List Char → List Char → Bool
  | [], _ => true
  | _ :: _, [] => false
  | a :: as, b :: bs => a = b && isPrefixChars as bs

/-- Does the haystack contain the needle as a contiguous run
(JavaScript `String.prototype.includes`)? -/
def containsAux (needle : List Char) : List Char → Bool
  | [] => isPrefixChars needle []
  | c :: rest => isPrefixChars needle (c :: rest) || containsAux needle rest

/-- JavaScript `hay.includes(needle)`. -/
def strContains (hay needle : String) : Bool :=
  containsAux needle.data hay.data

/-- JavaScript `String.prototype.trim` (whitespace stripped on both ends). -/
def jsTrim (s : String) : String :=
  String.mk (((s.data.dropWhile isWS).reverse.dropWhile isWS).reverse)

/-- First index at or after the running position where the needle occurs. -/
def indexOfAux (needle : List Char) : List Char → Nat → Option Nat
  | [], i => if isPrefixChars needle [] then some i else none
  | c :: rest, i =>
    if isPrefixChars needle (c :: rest) then some i
    else indexOfAux needle rest (i + 1)

/-- JavaScript `hay.indexOf(needle, start)` (absolute index, `none` for -1). -/
def indexOfFrom (hay needle : List Char) (start : Nat) : Option Nat :=
  indexOfAux needle (hay.drop start) start

/-- JavaScript `s.startsWith(pre)` (structural, kernel-reducible). -/
def jsStartsWith (s pre : String) : Bool :=
  isPrefixChars pre.data s.data

/-- JavaScript `s.endsWith(suff)` (structural, kernel-reducible). -/
def jsEndsWith (s suff : String) : Bool :=
  isPrefixChars suff.data.reverse s.data.reverse

/-- Extracts the capture groups of the global JavaScript regex
`/\.([a-zA-Z_-][a-zA-Z0-9_-]*)/g` run over a character list: the scan of
`extractClassNamesFromSelector` in pruner.ts. -/
def extractTokensAux : Nat → List Char → List String
  | 0, _ => []
  | _ + 1, [] => []
  | fuel + 1, '.' :: rest =>
    match rest with
    | [] => []
    | c :: rest' =>
      if isHeadChar c then
        String.mk (c :: rest'.takeWhile isTailChar) ::
          extractTokensAux fuel (rest'.dropWhile isTailChar)
      else
        extractTokensAux fuel (c :: rest')
  | fuel + 1, _ :: rest => extractTokensAux fuel rest

/-- `CSSPruner.extractClassNamesFromSelector`: all `.token` class names that
occur lexically inside a selector string. -/
def extractClassNamesFromSelector (selector : String) : List String :=
  extractTokensAux (selector.length + 1) selector.data

/-- `CSSPruner.isSpecialSelector`: selectors conservatively kept because they
contain `:`, `[`, `*`, the substring `html` or `body`, or consist solely of
letters (the regex `/^[a-z]+$/i` on the trimmed selector). -/
def isSpecialSelector (selector : String) : Bool :=
  strContains selector ":" || strContains selector "[" ||
  strContains selector "*" || strContains selector "html" ||
  strContains selector "body" ||
  (let t := (jsTrim selector).data
   !t.isEmpty && t.all Char.isAlpha)

/-- Whitelist/blacklist configuration consumed by the classifier
(`PrunerConfig.whitelist` / `PrunerConfig.blacklist`). -/
structure Config where
  whitelist : List String
  blacklist : List String
deriving Repr, DecidableEq

/-- JavaScript `pattern.slice(1, -1)`. -/
def sliceBody (p : String) : String :=
  String.mk ((p.data.drop 1).dropLast)

/-- One pattern test of `isWhitelisted`/`isBlacklisted`: a `/…/`-delimited
pattern is a regex test (oracle `rt`), anything else is substring
containment of the pattern in the selector. -/
def patMatch (rt : String → String → Bool) (p sel : String) : Bool :=
  if jsStartsWith p "/" && jsEndsWith p "/" then rt (sliceBody p) sel
  else strContains sel p

/-- `CSSPruner.isWhitelisted`. -/
def isWhitelisted (rt : String → String → Bool) (cfg : Config) (sel : String) : Bool :=
  cfg.whitelist.any (fun p => patMatch rt p sel)

/-- `CSSPruner.isBlacklisted`. -/
def isBlacklisted (rt : String → String → Bool) (cfg : Config) (sel : String) : Bool :=
  cfg.blacklist.any (fun p => patMatch rt p sel)

/-- `CSSPruner.isSelectorUsed`: some extracted class token is in the used
set, or the selector is special. -/
def isSelectorUsed (used : List String) (sel : String) : Bool :=
  (extractClassNamesFromSelector sel).any (fun c => used.contains c) ||
  isSpecialSelector sel

/-- The `CSSRule` record produced by `CSSParser` (css-parser.ts). -/
structure CSSRule where
  selector : String
  properties : String
  file : String
  line : Nat
  column : Nat
  size : Nat
  mediaQuery : Option String := none
  keyframe : Option String := none
deriving Repr, DecidableEq

/-- `UnusedSelector` record of pruner.ts. -/
structure UnusedSelector where
  selector : String
  file : String
  line : Nat
  column : Nat
  size : Nat
  reason : String
deriving Repr, DecidableEq

/-- `UsedSelector` record of pruner.ts. -/
structure UsedSelector where
  selector : String
  file : String
  usedIn : List String
  usageCount : Nat
deriving Repr, DecidableEq

/-- `CSSParser.calculateRuleSize`: UTF-8 byte length of selector text
concatenated with the declaration text. -/
def calculateRuleSize (selector properties : String) : Nat :=
  (selector ++ properties).utf8ByteSize

/-- Model of the css-tree AST shapes the engine inspects: a Rule node with a
SelectorList prelude (each selector stored as its `generate` text) and a
Block whose minified inner text is `decls`; an @media Atrule with its
prelude text and block children; an @keyframes Atrule with its name and
block children (the percentage steps are themselves Rule nodes, e.g. with
selector text `0%`, exactly as css-tree parses them). -/
inductive CNode where
  | rule (selectors : List String) (decls : String) (line column : Nat)
  | media (prelude : String) (children : List CNode) (line column : Nat)
  | keyframes (name : String) (children : List CNode) (line column : Nat)
deriving Repr

mutual
/-- css-tree `generate` of one node (minified serialisation). -/
def genNode : CNode → String
  | .rule sels decls _ _ => sepComma sels ++ "\x7b" ++ decls ++ "\x7d"
  | .media p ch _ _ => "@media " ++ p ++ "\x7b" ++ genList ch ++ "\x7d"
  | .keyframes n ch _ _ => "@keyframes " ++ n ++ "\x7b" ++ genList ch ++ "\x7d"
/-- css-tree `generate` of a node sequence (children of a block). -/
def genList : List CNode → String
  | [] => ""
  | n :: rest => genNode n ++ genList rest
/-- Selector list serialisation: members joined by commas. -/
def sepComma : List String → String
  | [] => ""
  | [s] => s
  | s :: rest => s ++ "," ++ sepComma rest
end

mutual
/-- All Rule nodes of a subtree in pre-order (what a nested css-tree `walk`
restricted to `node.type === 'Rule'` visits): selector list, declaration
text, line, column. -/
def collectRulesDeep : CNode → List (List String × String × Nat × Nat)
  | .rule sels decls l c => [(sels, decls, l, c)]
  | .media _ ch _ _ => collectRulesDeepList ch
  | .keyframes _ ch _ _ => collectRulesDeepList ch
/-- Pre-order Rule collection over a node sequence. -/
def collectRulesDeepList : List CNode → List (List String × String × Nat × Nat)
  | [] => []
  | n :: rest => collectRulesDeep n ++ collectRulesDeepList rest
end

/-- The records pushed for one Rule node: one per selector of its selector
list, selector trimmed, `properties` the generated block text (braces
included), size from `calculateRuleSize` on the untrimmed selector. -/
def ruleRecords (file : String) (mq kf : Option String)
    (sels : List String) (decls : String) (l c : Nat) : List CSSRule :=
  sels.map fun sel =>
    { selector := jsTrim sel
      properties := "\x7b" ++ decls ++ "\x7d"
      file := file
      line := l
      column := c
      size := calculateRuleSize sel ("\x7b" ++ decls ++ "\x7d")
      mediaQuery := mq
      keyframe := kf }

/-- `CSSParser.parseMediaRules`: walk the @media block and push one record
per selector of every Rule node found in it, stamped with the media query
text. -/
def parseMediaRules (file mq : String) (ch : List CNode) : List CSSRule :=
  (collectRulesDeepList ch).flatMap fun q =>
    ruleRecords file (some mq) none q.1 q.2.1 q.2.2.1 q.2.2.2

/-- `CSSParser.parseKeyframeRules`: one synthetic record per @keyframes
block, selector `"@keyframes <name>"`, properties the generated block. -/
def keyframeRecord (file name : String) (ch : List CNode) (l c : Nat) : CSSRule :=
  { selector := "@keyframes " ++ name
    properties := "\x7b" ++ genList ch ++ "\x7d"
    file := file
    line := l
    column := c
    size := calculateRuleSize ("@keyframes " ++ name) ("\x7b" ++ genList ch ++ "\x7d")
    mediaQuery := none
    keyframe := some name }

mutual
/-- The record stream of `CSSParser.parseCSSContent`'s single `walk`
callback, in visit order: a Rule node pushes its per-selector records; an
@media Atrule first pushes all records of `parseMediaRules` (the callback
fires on the Atrule before the walk descends), then the walk continues into
the block, where nested Rule nodes fire the plain Rule branch again; an
@keyframes Atrule pushes its synthetic record and the walk then visits the
percentage-step Rule nodes inside it. -/
def walkNode (file : String) : CNode → List CSSRule
  | .rule sels decls l c => ruleRecords file none none sels decls l c
  | .media p ch _ _ => parseMediaRules file p ch ++ walkList file ch
  | .keyframes n ch l c => keyframeRecord file n ch l c :: walkList file ch
/-- Pre-order record stream over a node sequence. -/
def walkList (file : String) : List CNode → List CSSRule
  | [] => []
  | n :: rest => walkNode file n ++ walkList file rest
end

/-- `CSSParser.parseCSSContent`: parse, then walk; a parse throw is caught
and yields the records accumulated so far, i.e. none. -/
def parseCSSContent (parseFn : String → Option (List CNode))
    (content file : String) : List CSSRule :=
  match parseFn content with
  | none => []
  | some ast => walkList file ast

/-- `CSSParser.parseCSSFiles`: per file, read then parse; a read failure
(`none` content) is caught and the batch continues. -/
def parseCSSFiles (parseFn : String → Option (List CNode)) :
    List (String × Option String) → List CSSRule
  | [] => []
  | (_, none) :: rest => parseCSSFiles parseFn rest
  | (file, some content) :: rest =>
    parseCSSContent parseFn content file ++ parseCSSFiles parseFn rest

/-- The `usedSelectors` entry pushed when the source scan finds a rule used. -/
def usedEntry (r : CSSRule) : UsedSelector :=
  { selector := r.selector, file := r.file, usedIn := [], usageCount := 1 }

/-- The `usedSelectors` entry pushed for a whitelisted rule. -/
def whitelistEntry (r : CSSRule) : UsedSelector :=
  { selector := r.selector, file := r.file, usedIn := ["whitelist"], usageCount := 1 }

/-- The `unusedSelectors` entry pushed for a blacklisted rule. -/
def blacklistEntry (r : CSSRule) : UnusedSelector :=
  { selector := r.selector, file := r.file, line := r.line, column := r.column
    size := r.size, reason := "Blacklisted" }

/-- The `unusedSelectors` entry pushed for a rule not found in sources. -/
def notFoundEntry (r : CSSRule) : UnusedSelector :=
  { selector := r.selector, file := r.file, line := r.line, column := r.column
    size := r.size, reason := "Not found in source files" }

/-- `CSSPruner.analyzeUsage`: classify every rule, in order, into exactly
one of the two output lists (unused, used). -/
def analyzeUsage (rt : String → String → Bool) (cfg : Config)
    (rules : List CSSRule) (used : List String) :
    List UnusedSelector × List UsedSelector :=
  match rules with
  | [] => ([], [])
  | r :: rest =>
    let p := analyzeUsage rt cfg rest used
    if isSelectorUsed used r.selector then (p.1, usedEntry r :: p.2)
    else if isWhitelisted rt cfg r.selector then (p.1, whitelistEntry r :: p.2)
    else if isBlacklisted rt cfg r.selector then (blacklistEntry r :: p.1, p.2)
    else (notFoundEntry r :: p.1, p.2)

/-- `AnalysisStats` (duration omitted: wall-clock time is not modelled). -/
structure AnalysisStats where
  totalCSSFiles : Nat
  totalSourceFiles : Nat
  totalSelectors : Nat
  usedSelectors : Nat
  unusedSelectors : Nat
  totalSize : Nat
deriving Repr, DecidableEq

/-- `AnalysisResult` of pruner.ts. -/
structure AnalysisResult where
  unusedSelectors : List UnusedSelector
  usedSelectors : List UsedSelector
  potentialSavings : Nat
  stats : AnalysisStats
deriving Repr, DecidableEq

/-- `CSSPruner.analyze` on an in-memory file system: parse all configured
CSS files, classify against the scanned used-class set (the source scan
itself is abstracted to its resulting token set `used`), and sum the sizes
of the unused records into `potentialSavings`. -/
def analyzeModel (rt : String → String → Bool)
    (parseFn : String → Option (List CNode)) (cfg : Config)
    (files : List (String × String)) (used : List String) : AnalysisResult :=
  let cssRules := parseCSSFiles parseFn (files.map fun f => (f.1, some f.2))
  let p := analyzeUsage rt cfg cssRules used
  { unusedSelectors := p.1
    usedSelectors := p.2
    potentialSavings := (p.1.map (fun u => u.size)).sum
    stats :=
      { totalCSSFiles := files.length
        totalSourceFiles := 0
        totalSelectors := cssRules.length
        usedSelectors := p.2.length
        unusedSelectors := p.1.length
        totalSize := (cssRules.map (fun r => r.size)).sum } }

/-- The `\x7b` character, defined by code point so that brace characters
never appear literally in the file. -/
def lbrace : Char := Char.ofNat 123

/-- The `\x7d` character. -/
def rbrace : Char := Char.ofNat 125

mutual
/-- Would `walkWithContext` (pruner.ts `removeUnusedSelectors`) call
`list.remove` somewhere in this subtree?  A Rule node outside a preserved
@keyframes whose selector list contains an unused, non-whitelisted member
is scheduled for removal; because `list.remove` receives the AST node
instead of a list item (see the header), the first such call throws and
the whole structural strategy falls back to string replacement. -/
def nodeAttempts (rt : String → String → Bool) (cfg : Config)
    (unusedSet : List String) (insideKf : Bool) : CNode → Bool
  | .rule sels _ _ _ =>
    if insideKf then false
    else sels.any fun s =>
      unusedSet.contains (jsTrim s) && !(isWhitelisted rt cfg (jsTrim s))
  | .media _ ch _ _ => listAttempts rt cfg unusedSet insideKf ch
  | .keyframes n ch _ _ =>
    let fullAtRule := if n = "" then "@keyframes" else "@keyframes " ++ n
    let shouldPreserve :=
      isWhitelisted rt cfg fullAtRule || isWhitelisted rt cfg "@keyframes" ||
      (n ≠ "" && (isWhitelisted rt cfg (jsTrim n) ||
        isWhitelisted rt cfg ("@keyframes " ++ jsTrim n)))
    if shouldPreserve then listAttempts rt cfg unusedSet true ch
    else listAttempts rt cfg unusedSet insideKf ch
/-- `nodeAttempts` over a child sequence. -/
def listAttempts (rt : String → String → Bool) (cfg : Config)
    (unusedSet : List String) (insideKf : Bool) : List CNode → Bool
  | [] => false
  | n :: rest =>
    nodeAttempts rt cfg unusedSet insideKf n ||
    listAttempts rt cfg unusedSet insideKf rest
end

/-- Tail of the fallback search regex
`(?:^|[,}])\s*ESC\s*(?:[,{]|$)` after the boundary: greedy whitespace, the
literal selector, greedy whitespace, then a comma, an opening brace or the
end of the string.  Returns the number of characters consumed.  (Greedy
whitespace without backtracking coincides with the JavaScript engine here
because the selector text never begins with whitespace and the final
alternatives are non-whitespace or end-of-input.) -/
def matchTail (sel rest : List Char) : Option Nat :=
  let w1 := (rest.takeWhile isWS).length
  let r1 := rest.drop w1
  if isPrefixChars sel r1 then
    let r2 := r1.drop sel.length
    let w2 := (r2.takeWhile isWS).length
    match r2.drop w2 with
    | [] => some (w1 + sel.length + w2)
    | c :: _ =>
      if c = ',' || c = lbrace then some (w1 + sel.length + w2 + 1) else none
  else none

/-- `selectorPattern.exec(result)` from position `p` of the remaining text:
returns `(match.index, lastIndex after the match)`.  The `^` alternative
fires only at absolute position 0; otherwise the match starts at a comma or
closing brace. -/
def execScan (sel : List Char) : List Char → Nat → Option (Nat × Nat)
  | [], p =>
    if p = 0 then (matchTail sel []).map fun n => (0, n) else none
  | c :: r, p =>
    if p = 0 && (matchTail sel (c :: r)).isSome then
      (matchTail sel (c :: r)).map fun n => (0, n)
    else if (c = ',' || c = rbrace) && (matchTail sel r).isSome then
      (matchTail sel r).map fun n => (p, p + 1 + n)
    else execScan sel r (p + 1)

/-- Brace counting of the fallback: starting just after the opening brace
with count 1, step until the count reaches 0 or the text ends; returns the
final count and the index one past the last processed character. -/
def braceScanAux : List Char → Nat → Nat → Nat × Nat
  | [], cnt, i => (cnt, i)
  | c :: rest, cnt, i =>
    if cnt = 0 then (cnt, i)
    else
      braceScanAux rest
        (if c = lbrace then cnt + 1 else if c = rbrace then cnt - 1 else cnt)
        (i + 1)

/-- JavaScript `s.replace(/,\s*$/, '')`. -/
def stripTrailingCommaWS (s : String) : String :=
  match (s.data.reverse).dropWhile isWS with
  | ',' :: rest => String.mk rest.reverse
  | _ => s

/-- JavaScript `s.replace(/^,\s*/, '')`. -/
def stripLeadingCommaWS (s : String) : String :=
  match s.data with
  | ',' :: rest => String.mk (rest.dropWhile isWS)
  | _ => s

/-- One unused-selector entry of the fallback while-loop
(`removeUnusedSelectorsStringBased`): find the first boundary match of the
selector, locate the literal selector and its opening brace, count braces
to the matching close; a multi-selector rule gets the surgical
selector-plus-comma deletion, a sole selector gets its whole span deleted;
in either case the loop breaks after one processed match, and a match
without locatable selector or brace re-runs the search from the regex
`lastIndex` (the `continue` branches). -/
def entryLoop (sel : List Char) : Nat → String → Nat → String
  | 0, result, _ => result
  | fuel + 1, result, lastIndex =>
    let content := result.data
    match execScan sel (content.drop lastIndex) lastIndex with
    | none => result
    | some m =>
      match indexOfFrom content sel m.1 with
      | none => entryLoop sel fuel result m.2
      | some selectorStart =>
        match indexOfFrom content [lbrace] selectorStart with
        | none => entryLoop sel fuel result m.2
        | some openBrace =>
          let sc := braceScanAux (content.drop (openBrace + 1)) 1 (openBrace + 1)
          if sc.1 = 0 then
            let ruleContent := (content.drop selectorStart).take (openBrace - selectorStart)
            if ruleContent.contains ',' then
              let before := String.mk (content.take selectorStart)
              let after := String.mk (content.drop (selectorStart + sel.length))
              let newContent :=
                if jsEndsWith before "," || jsEndsWith before ", " then
                  stripTrailingCommaWS before
                else before
              let afterContent :=
                if jsStartsWith after "," || jsStartsWith after ", " then
                  stripLeadingCommaWS after
                else after
              newContent ++ afterContent
            else
              String.mk (content.take selectorStart ++ content.drop sc.2)
          else result

/-- Specificity proxy of the fallback sort: count of `.`/`#` characters. -/
def countSpec (s : String) : Nat :=
  (s.data.filter fun c => c = '.' || c = '#').length

/-- Comparator of the fallback sort: higher specificity proxy first, then
longer selector first. -/
def entryBefore (a b : UnusedSelector) : Bool :=
  countSpec b.selector < countSpec a.selector ||
  (countSpec a.selector = countSpec b.selector &&
    b.selector.length < a.selector.length)

/-- Stable insertion for the fallback sort (JavaScript `Array.sort` is
stable). -/
def insertStable (a : UnusedSelector) :
    List UnusedSelector → List UnusedSelector
  | [] => [a]
  | b :: bs => if entryBefore b a then b :: insertStable a bs else a :: b :: bs

/-- Stable sort of the unused-selector entries by `entryBefore`. -/
def sortEntries : List UnusedSelector → List UnusedSelector
  | [] => []
  | a :: as => insertStable a (sortEntries as)

/-- JavaScript `result.replace(/;\s*;/g, ';')` (non-overlapping global
matches over the original text). -/
def replSemiAux : Nat → List Char → List Char
  | 0, l => l
  | _ + 1, [] => []
  | fuel + 1, ';' :: rest =>
    match rest.drop ((rest.takeWhile isWS).length) with
    | ';' :: r' => ';' :: replSemiAux fuel r'
    | _ => ';' :: replSemiAux fuel rest
  | fuel + 1, c :: rest => c :: replSemiAux fuel rest

/-- JavaScript `result.replace(/\s{2,}/g, ' ')`. -/
def replWSAux : Nat → List Char → List Char
  | 0, l => l
  | _ + 1, [] => []
  | fuel + 1, c :: rest =>
    if isWS c then
      let w := (rest.takeWhile isWS).length
      if 1 ≤ w then ' ' :: replWSAux fuel (rest.drop w)
      else c :: replWSAux fuel rest
    else c :: replWSAux fuel rest

/-- JavaScript `result.replace(/}\s*}/g, '}')`. -/
def replBraceAux : Nat → List Char → List Char
  | 0, l => l
  | _ + 1, [] => []
  | fuel + 1, c :: rest =>
    if c = rbrace then
      match rest.drop ((rest.takeWhile isWS).length) with
      | c' :: r' =>
        if c' = rbrace then c :: replBraceAux fuel r'
        else c :: replBraceAux fuel rest
      | [] => c :: replBraceAux fuel rest
    else c :: replBraceAux fuel rest

/-- `CSSPruner.removeUnusedSelectorsStringBased`: sort the entries by the
specificity proxy, process each non-whitelisted entry with the
one-match-per-entry loop, then normalise doubled semicolons, whitespace
runs and doubled closing braces, and trim. -/
def removeUnusedSelectorsStringBased (rt : String → String → Bool)
    (cfg : Config) (content : String) (unused : List UnusedSelector) : String :=
  let afterLoop := (sortEntries unused).foldl
    (fun result entry =>
      if isWhitelisted rt cfg entry.selector then result
      else entryLoop entry.selector.data (result.length + 2) result 0)
    content
  let r1 := replSemiAux (afterLoop.data.length + 1) afterLoop.data
  let r2 := replWSAux (r1.length + 1) r1
  let r3 := replBraceAux (r2.length + 1) r2
  jsTrim (String.mk r3)

/-- `CSSPruner.removeUnusedSelectors`: re-parse and walk with the keyframes
context; a parse throw, or the throw raised by the first attempted
`list.remove` (see the header), routes to the string fallback on the
original content; if the walk schedules nothing, the tree is re-serialised
(minified) by `generate`. -/
def removeUnusedSelectors (rt : String → String → Bool)
    (parseFn : String → Option (List CNode)) (cfg : Config)
    (content : String) (unused : List UnusedSelector) : String :=
  match parseFn content with
  | none => removeUnusedSelectorsStringBased rt cfg content unused
  | some ast =>
    let unusedSet := unused.map fun u => u.selector
    if listAttempts rt cfg unusedSet false ast then
      removeUnusedSelectorsStringBased rt cfg content unused
    else genList ast

/-- One insertion into the `unusedByFile` map of `clean` (JavaScript `Map`
preserves first-seen key order; values are appended in push order). -/
def addToGroup (g : List (String × List UnusedSelector)) (s : UnusedSelector) :
    List (String × List UnusedSelector) :=
  if g.any fun e => e.1 = s.file then
    g.map fun e => if e.1 = s.file then (e.1, e.2 ++ [s]) else e
  else g ++ [(s.file, [s])]

/-- The `unusedByFile` grouping of `clean`. -/
def groupByFile (l : List UnusedSelector) : List (String × List UnusedSelector) :=
  l.foldl addToGroup []

/-- In-memory `readFileSync`: `none` models a read throw. -/
def lookupFile (files : List (String × String)) (p : String) : Option String :=
  (files.find? fun e => e.1 = p).map fun e => e.2

/-- In-memory `writeFileSync` over the file association list. -/
def writeFile (files : List (String × String)) (p c : String) :
    List (String × String) :=
  files.map fun e => if e.1 = p then (e.1, c) else e

/-- `CleanResult` of pruner.ts (backup bookkeeping is not modelled: backups
are fresh timestamped sibling files and never alter existing contents). -/
structure CleanResult where
  removedSelectors : List UnusedSelector
  bytesSaved : Int
  modifiedFiles : List String
deriving Repr, DecidableEq

/-- `CSSPruner.clean` with `dryRun = false` on an in-memory file system:
analyze, group the unused records by file, and per file read, remove, and
write back only when the text changed; a file whose read fails is skipped.
Returns the `CleanResult` and the file system after the run. -/
def cleanModel (rt : String → String → Bool)
    (parseFn : String → Option (List CNode)) (cfg : Config)
    (files : List (String × String)) (used : List String) :
    CleanResult × List (String × String) :=
  let ar := analyzeModel rt parseFn cfg files used
  let st := (groupByFile ar.unusedSelectors).foldl
    (fun (acc : List (String × String) × List String × Int) g =>
      match lookupFile acc.1 g.1 with
      | none => acc
      | some original =>
        let cleaned := removeUnusedSelectors rt parseFn cfg original g.2
        if cleaned = original then acc
        else
          (writeFile acc.1 g.1 cleaned, acc.2.1 ++ [g.1],
            acc.2.2 + (original.utf8ByteSize : Int) - (cleaned.utf8ByteSize : Int)))
    (files, [], 0)
  ({ removedSelectors := ar.unusedSelectors
     bytesSaved := st.2.2
     modifiedFiles := st.2.1 }, st.1)

/-- Observable steps of one `analyze` run, for the error-timing analysis:
the `readFileSync` of a configured CSS file, the scan of one source
directory, and the throw of a malformed whitelist/blacklist regex pattern
(`new RegExp` raising inside `isWhitelisted`/`isBlacklisted`). -/
inductive AnalyzeEvent where
  | readCSS (file : String)
  | scanSources (dir : String)
  | patternError (pattern : String)
deriving Repr, DecidableEq

/-- One pattern test with fallible regex compilation: `compile` returns
`none` when `new RegExp(body)` would throw; the error carries the
offending pattern. -/
def patMatchE (compile : String → Option (String → Bool)) (p sel : String) :
    Except String Bool :=
  if jsStartsWith p "/" && jsEndsWith p "/" then
    match compile (sliceBody p) with
    | none => Except.error p
    | some t => Except.ok (t sel)
  else Except.ok (strContains sel p)

/-- Short-circuiting `Array.some` over a pattern list with fallible tests. -/
def anyPatternE (compile : String → Option (String → Bool))
    (sel : String) : List String → Except String Bool
  | [] => Except.ok false
  | p :: rest =>
    match patMatchE compile p sel with
    | Except.error e => Except.error e
    | Except.ok true => Except.ok true
    | Except.ok false => anyPatternE compile sel rest

/-- `isWhitelisted` with fallible regex compilation. -/
def isWhitelistedE (compile : String → Option (String → Bool)) (cfg : Config)
    (sel : String) : Except String Bool :=
  anyPatternE compile sel cfg.whitelist

/-- `isBlacklisted` with fallible regex compilation. -/
def isBlacklistedE (compile : String → Option (String → Bool)) (cfg : Config)
    (sel : String) : Except String Bool :=
  anyPatternE compile sel cfg.blacklist

/-- `analyzeUsage` with fallible regex compilation: the loop throws at the
first rule whose whitelist or blacklist test hits a malformed pattern, and
the exception propagates out of `analyze` (there is no try/catch around the
classification loop). -/
def analyzeUsageE (compile : String → Option (String → Bool)) (cfg : Config)
    (used : List String) :
    List CSSRule → Except String (List UnusedSelector × List UsedSelector)
  | [] => Except.ok ([], [])
  | r :: rest =>
    if isSelectorUsed used r.selector then
      (analyzeUsageE compile cfg used rest).map fun p => (p.1, usedEntry r :: p.2)
    else
      match isWhitelistedE compile cfg r.selector with
      | Except.error e => Except.error e
      | Except.ok true =>
        (analyzeUsageE compile cfg used rest).map fun p =>
          (p.1, whitelistEntry r :: p.2)
      | Except.ok false =>
        match isBlacklistedE compile cfg r.selector with
        | Except.error e => Except.error e
        | Except.ok true =>
          (analyzeUsageE compile cfg used rest).map fun p =>
            (blacklistEntry r :: p.1, p.2)
        | Except.ok false =>
          (analyzeUsageE compile cfg used rest).map fun p =>
            (notFoundEntry r :: p.1, p.2)

/-- The event trace of one `analyze` run, in the statement order of
`CSSPruner.analyze`: all configured CSS files are read and parsed first
(`parseCSSFiles`), then the source directories are scanned, and only then
does classification run, where a malformed pattern raises. -/
def analyzeEvents (compile : String → Option (String → Bool))
    (parseFn : String → Option (List CNode)) (cfg : Config)
    (cssFiles : List (String × Option String)) (dirs : List String)
    (used : List String) : List AnalyzeEvent :=
  (cssFiles.map fun f => AnalyzeEvent.readCSS f.1) ++
  (dirs.map AnalyzeEvent.scanSources) ++
  (match analyzeUsageE compile cfg used (parseCSSFiles parseFn cssFiles) with
   | Except.error p => [AnalyzeEvent.patternError p]
   | Except.ok _ => [])

/-! Concrete instances for the claim theorems.  Each `…parse` table below
records the AST that css-tree's `parse` produces for exactly the listed
source text (selector texts are the `generate` output of the parsed
selector nodes, declaration texts the minified block interiors). -/

/-- Regex oracle for runs whose configurations hold no `/…/` pattern (the
oracle is then never consulted). -/
def rtF : String → String → Bool := fun _ _ => false

/-- Empty whitelist and blacklist. -/
def cfg0 : Config := { whitelist := [], blacklist := [] }

/-- Claim C2 input text: `.a, .b { color: red; }`. -/
def c2css : String := ".a, .b \x7b color: red; \x7d"

/-- css-tree AST of `c2css`: one Rule, selector list `.a`, `.b`, minified
block interior `color:red`. -/
def c2ast : List CNode := [CNode.rule [".a", ".b"] "color:red" 1 1]

/-- Parse table for the C2 run. -/
def c2parse : String → Option (List CNode) :=
  fun s => if s = c2css then some c2ast else none

/-- Claim C7 input text: `.x` newline `.y{color:red}` — one rule whose
descendant selector spans a newline, so its `generate` text `.x .y` never
occurs literally in the file. -/
def c7css : String := ".x\n.y\x7bcolor:red\x7d"

/-- Parse table for the C7 run. -/
def c7parse : String → Option (List CNode) :=
  fun s => if s = c7css then some [CNode.rule [".x .y"] "color:red" 1 1] else none

/-- First `clean` run of the C7 scenario. -/
def c7run1 : CleanResult × List (String × String) :=
  cleanModel rtF c7parse cfg0 [("a.css", c7css)] []

/-- Second `clean` run of the C7 scenario, on the files the first run left. -/
def c7run2 : CleanResult × List (String × String) :=
  cleanModel rtF c7parse cfg0 c7run1.2 []

/-- Witness scenario for the amended C7: `.a{color:red}`, fully removable. -/
def c7bcss : String := ".a\x7bcolor:red\x7d"

/-- Parse table for the amended-C7 witness (the cleaned text is empty and
parses to an empty stylesheet). -/
def c7bparse : String → Option (List CNode) := fun s =>
  if s = c7bcss then some [CNode.rule [".a"] "color:red" 1 1]
  else if s = "" then some [] else none

/-- Claim C6 input text: `.foo{color:red}` newline `.bar{color:blue}`. -/
def c6css : String := ".foo\x7bcolor:red\x7d\n.bar\x7bcolor:blue\x7d"

/-- css-tree AST of `c6css`. -/
def c6ast : List CNode :=
  [CNode.rule [".foo"] "color:red" 1 1, CNode.rule [".bar"] "color:blue" 2 1]

/-- Parse table for the C6 run. -/
def c6parse : String → Option (List CNode) :=
  fun s => if s = c6css then some c6ast else none

/-- The C6 `analyze` result: one CSS file, used token set from a source
file containing `class="bar"` (the scanner yields the token `bar`). -/
def c6res : AnalysisResult :=
  analyzeModel rtF c6parse cfg0 [("styles.css", c6css)] ["bar"]

/-- Claim C1 input text:
`@keyframes spin { 0% {opacity:0} 100% {opacity:1} }`. -/
def c1css : String :=
  "@keyframes spin \x7b 0% \x7bopacity:0\x7d 100% \x7bopacity:1\x7d \x7d"

/-- css-tree AST of `c1css`: one @keyframes Atrule whose block holds two
Rule nodes with selector texts `0%` and `100%` (css-tree parses keyframe
steps as Rule nodes with Percentage selectors). -/
def c1ast : List CNode :=
  [CNode.keyframes "spin"
    [CNode.rule ["0%"] "opacity:0" 1 19, CNode.rule ["100%"] "opacity:1" 1 34]
    1 1]

/-- Parse table for the C1 run. -/
def c1parse : String → Option (List CNode) :=
  fun s => if s = c1css then some c1ast else none

/-- The records `parseCSSContent` extracts from the C1 stylesheet. -/
def c1rules : List CSSRule := parseCSSContent c1parse c1css "anim.css"

/-- Claim C3 instance: `@media screen { .a { color: red } }`. -/
def c3ast : List CNode :=
  [CNode.media "screen" [CNode.rule [".a"] "color:red" 1 15] 1 1]

/-- The records `parseCSSContent`'s walk emits for the C3 stylesheet. -/
def c3rules : List CSSRule := walkList "m.css" c3ast

/-- A plain one-class rule record, used by the classifier claims. -/
def xRule : CSSRule :=
  { selector := ".x", properties := "\x7bcolor:red\x7d", file := "a.css"
    line := 1, column := 1, size := 13 }

/-- Blacklist-only configuration matching `.x`. -/
def cfgB : Config := { whitelist := [], blacklist := [".x"] }

/-- Configuration whitelisting and blacklisting `.x` simultaneously. -/
def cfgWB : Config := { whitelist := [".x"], blacklist := [".x"] }

/-- Parse table for the C8 witness batch. -/
def c8parse : String → Option (List CNode) := fun s =>
  if s = ".good\x7bcolor:red\x7d" then some [CNode.rule [".good"] "color:red" 1 1]
  else none

/-- Compilation oracle on which every regex pattern is malformed
(models a whitelist such as the unterminated class `/[/`). -/
def badCompile : String → Option (String → Bool) := fun _ => none

/-- Whitelist with the malformed regex pattern for the C9 run. -/
def c9cfg : Config := { whitelist := ["/[/"], blacklist := [] }

/-- Claim C9 CSS text. -/
def c9css : String := ".foo\x7bcolor:red\x7d"

/-- Parse table for the C9 run. -/
def c9parse : String → Option (List CNode) :=
  fun s => if s = c9css then some [CNode.rule [".foo"] "color:red" 1 1] else none

/-- The event trace of the C9 `analyze` run. -/
def c9events : List AnalyzeEvent :=
  analyzeEvents badCompile c9parse c9cfg [("styles.css", some c9css)] ["src"] []

theorem analyzeUsage_count (rt : String → String → Bool) (cfg : Config)
    (used : List String) :
    ∀ rules : List CSSRule,
      (analyzeUsage rt cfg rules used).1.length +
        (analyzeUsage rt cfg rules used).2.length = rules.length := by
  intro rules
  induction rules with
  | nil => rfl
  | cons r rest ih =>
    by_cases h1 : isSelectorUsed used r.selector <;>
      by_cases h2 : isWhitelisted rt cfg r.selector <;>
        by_cases h3 : isBlacklisted rt cfg r.selector <;>
          simp [analyzeUsage, h1, h2, h3] <;> omega

theorem parseCSSFiles_append (parseFn : String → Option (List CNode)) :
    ∀ xs ys : List (String × Option String),
      parseCSSFiles parseFn (xs ++ ys) =
        parseCSSFiles parseFn xs ++ parseCSSFiles parseFn ys := by
  intro xs ys
  induction xs with
  | nil => rfl
  | cons f rest ih =>
    obtain ⟨p, c⟩ := f
    cases c <;> simp [parseCSSFiles, ih]

theorem cleanModel_no_unused (rt : String → String → Bool)
    (parseFn : String → Option (List CNode)) (cfg : Config)
    (fs : List (String × String)) (used : List String)
    (h : (analyzeModel rt parseFn cfg fs used).unusedSelectors = []) :
    (cleanModel rt parseFn cfg fs used).1.removedSelectors = [] ∧
      (cleanModel rt parseFn cfg fs used).2 = fs := by
  constructor <;> simp [cleanModel, h, groupByFile]

/-- Claim C10: the classifier partitions its input: for every rule list,
used token set and whitelist/blacklist, each rule lands in exactly one of
`usedSelectors`/`unusedSelectors`, so their lengths add up to
`stats.totalSelectors`, the number of extracted rules. -/
theorem claim_C10_partition (rt : String → String → Bool)
    (parseFn : String → Option (List CNode)) (cfg : Config)
    (files : List (String × String)) (used : List String) :
    (analyzeModel rt parseFn cfg files used).unusedSelectors.length +
      (analyzeModel rt parseFn cfg files used).usedSelectors.length =
      (analyzeModel rt parseFn cfg files used).stats.totalSelectors := by
  simp only [analyzeModel]
  exact analyzeUsage_count rt cfg used _

/-- Claim C5 (confirmed): for a rule none of whose class tokens is used and
which is not special, matching both a whitelist and a blacklist pattern
yields the Whitelisted verdict (pushed to `usedSelectors` with
`usedIn = ["whitelist"]`), never Blacklisted — the whitelist test runs
before the blacklist test. -/
theorem claim_C5_whitelist_precedence (rt : String → String → Bool)
    (cfg : Config) (used : List String) (r : CSSRule)
    (h1 : isSelectorUsed used r.selector = false)
    (h2 : isWhitelisted rt cfg r.selector = true)
    (_h3 : isBlacklisted rt cfg r.selector = true) :
    analyzeUsage rt cfg [r] used = ([], [whitelistEntry r]) := by
  simp [analyzeUsage, h1, h2]

/-- Witness for C5 at `.x` with empty used set and the pattern `.x` on both
lists. -/
theorem claim_C5_witness :
    analyzeUsage rtF cfgWB [xRule] [] = ([], [whitelistEntry xRule]) :=
  claim_C5_whitelist_precedence rtF cfgWB [] xRule (by decide) (by decide)
    (by decide)

/-- Claim C4 counterexample: selector `.x` matches the blacklist pattern
`.x` and no whitelist pattern, yet with the class token `x` in the used
set the verdict is Used (the used check precedes the blacklist check), so
`unusedSelectors` is empty and no Blacklisted verdict is produced —
refuting "Blacklisted regardless of the source scan". -/
theorem claim_C4_blacklist_cex :
    isBlacklisted rtF cfgB ".x" = true ∧
    isWhitelisted rtF cfgB ".x" = false ∧
    analyzeUsage rtF cfgB [xRule] ["x"] = ([], [usedEntry xRule]) := by
  decide

/-- Claim C4 amended: a rule whose selector matches a blacklist pattern and
no whitelist pattern is classified Blacklisted (removed) provided the
source scan also failed for it, i.e. no extracted class token is in the
used set and the selector is not special. -/
theorem claim_C4_amended_blacklisted_when_unused (rt : String → String → Bool)
    (cfg : Config) (used : List String) (r : CSSRule)
    (h1 : isSelectorUsed used r.selector = false)
    (h2 : isWhitelisted rt cfg r.selector = false)
    (h3 : isBlacklisted rt cfg r.selector = true) :
    analyzeUsage rt cfg [r] used = ([blacklistEntry r], []) := by
  simp [analyzeUsage, h1, h2, h3]

/-- Witness for the amended C4 at `.x` with empty used set. -/
theorem claim_C4_amended_witness :
    analyzeUsage rtF cfgB [xRule] [] = ([blacklistEntry xRule], []) :=
  claim_C4_amended_blacklisted_when_unused rtF cfgB [] xRule (by decide)
    (by decide) (by decide)

/-- Claim C1 (code bug): for the stylesheet
`@keyframes spin { 0% {opacity:0} 100% {opacity:1} }`, extraction emits —
besides the synthetic `@keyframes spin` record — per-step records with
selector texts `0%` and `100%` (the single `walk` of `parseCSSContent`
also visits the Rule nodes inside the @keyframes block), and with an empty
used set and empty pattern lists classification flags all three as unused,
so ClassifiedSelector records with selectorText `0%`/`100%` are produced,
contradicting the claim and the code's own comment in
`parseKeyframeRules`. -/
theorem claim_C1_keyframe_step_records :
    (c1rules.map fun r => r.selector) = ["@keyframes spin", "0%", "100%"] ∧
    ((analyzeUsage rtF cfg0 c1rules []).1.map fun u => (u.selector, u.reason)) =
      [("@keyframes spin", "Not found in source files"),
        ("0%", "Not found in source files"),
        ("100%", "Not found in source files")] := by
  decide

/-- Claim C2 (confirmed): cleaning `.a, .b { color: red; }` with `b` used
and `a` unused rewrites the file to exactly `.b { color: red; }`: the
scheduled structural removal throws (see the header) and the string
fallback surgically deletes `.a` together with its trailing comma, so the
output holds a rule whose selector is exactly `.b` with no stray comma and
no rule with selector `.a`. -/
theorem claim_C2_multi_selector_split :
    (cleanModel rtF c2parse cfg0 [("styles.css", c2css)] ["b"]).2 =
      [("styles.css", ".b \x7b color: red; \x7d")] ∧
    strContains ".b \x7b color: red; \x7d" ".a" = false := by
  decide

/-- Claim C6 counterexample: for `.foo{color:red}` / `.bar{color:blue}`
with only `bar` used, `analyze` reports the claimed unused/used lists, but
`potentialSavings` is 15 — the UTF-8 length of `.foo` plus the *generated
block* `{color:red}` (braces included) — not the claimed
`byteLength(".foo" + "color:red") = 13`. -/
theorem claim_C6_savings_cex :
    (c6res.unusedSelectors.map fun u => (u.selector, u.reason)) =
      [(".foo", "Not found in source files")] ∧
    (c6res.usedSelectors.map fun u => u.selector) = [".bar"] ∧
    c6res.potentialSavings = 15 ∧
    (".foo" ++ "color:red").utf8ByteSize = 13 ∧
    ¬ c6res.potentialSavings = (".foo" ++ "color:red").utf8ByteSize := by
  decide

/-- Claim C6 amended: same scenario, but the byte size of a record is the
UTF-8 length of its selector text plus its declaration text *as generated*,
which includes the block braces: `potentialSavings =
byteLength(".foo" + "{color:red}")`. -/
theorem claim_C6_amended_exact_savings :
    c6res.unusedSelectors =
      [{ selector := ".foo", file := "styles.css", line := 1, column := 1
         size := 15, reason := "Not found in source files" }] ∧
    c6res.usedSelectors =
      [{ selector := ".bar", file := "styles.css", usedIn := []
         usageCount := 1 }] ∧
    c6res.potentialSavings = (".foo" ++ "\x7bcolor:red\x7d").utf8ByteSize := by
  decide

/-- Claim C3 counterexample: for `@media screen { .a { color: red } }` the
walk emits *two* records for the single selector `.a` — first the record
stamped by `parseMediaRules` (mediaQuery `screen`), then, when the same
walk descends into the @media block and visits the nested Rule node again,
a second record with no mediaQuery — refuting both "exactly one record per
selector" and "every media-nested record carries mediaContext". -/
theorem claim_C3_media_duplicate_cex :
    (c3rules.map fun r => (r.selector, r.mediaQuery)) =
      [(".a", some "screen"), (".a", none)] := by
  decide

/-- Claim C3 amended: a top-level rule yields exactly one record per
comma-separated selector; every record produced by the @media recursion
carries mediaContext equal to the media prelude; but a rule nested inside
an @media block is emitted twice per selector — once stamped by the media
recursion and once, unstamped, by the generic Rule branch of the same
walk. -/
theorem claim_C3_amended_media_stamping :
    (∀ (file mq : String) (ch : List CNode) (r : CSSRule),
        r ∈ parseMediaRules file mq ch → r.mediaQuery = some mq) ∧
    (∀ (file : String) (sels : List String) (decls : String) (l c : Nat),
        (walkNode file (CNode.rule sels decls l c)).length = sels.length) ∧
    (c3rules.map fun r => (r.selector, r.mediaQuery)) =
      [(".a", some "screen"), (".a", none)] := by
  refine ⟨?_, ?_, by decide⟩
  · intro file mq ch r hr
    simp only [parseMediaRules, List.mem_flatMap] at hr
    obtain ⟨q, _, hrq⟩ := hr
    simp only [ruleRecords, List.mem_map] at hrq
    obtain ⟨sel, _, hsel⟩ := hrq
    rw [← hsel]
  · intro file sels decls l c
    simp [walkNode, ruleRecords]

/-- Witness for the amended C3: the stamped record of the C3 stylesheet
carries mediaContext `screen`. -/
theorem claim_C3_amended_witness :
    ({ selector := ".a", properties := "\x7bcolor:red\x7d", file := "m.css"
       line := 1, column := 15, size := 13, mediaQuery := some "screen"
       keyframe := none } : CSSRule).mediaQuery = some "screen" :=
  claim_C3_amended_media_stamping.1 "m.css" "screen"
    [CNode.rule [".a"] "color:red" 1 15] _ (by decide)

/-- Claim C7 counterexample: one stylesheet `.x` newline `.y{color:red}`
with nothing used.  The generated selector text `.x .y` never occurs
literally in the file, so the string fallback (entered because the
scheduled structural removal throws) matches nothing and the first `clean`
leaves the file byte-identical; the second `clean` therefore reports the
same non-empty `removedSelectors` again instead of the claimed `[]`. -/
theorem claim_C7_idempotence_cex :
    c7run2.1.removedSelectors =
      [{ selector := ".x .y", file := "a.css", line := 1, column := 1
         size := 16, reason := "Not found in source files" }] ∧
    c7run2.2 = c7run1.2 ∧
    ¬ c7run2.1.removedSelectors = [] := by
  decide

/-- Claim C7 amended: `clean` run twice is idempotent only when the first
run actually eliminated every unused selector: if re-analysis of the
once-cleaned files finds no unused selectors, the second run reports
`removedSelectors = []` and changes no file. -/
theorem claim_C7_amended_idempotent_when_removed (rt : String → String → Bool)
    (parseFn : String → Option (List CNode)) (cfg : Config)
    (files : List (String × String)) (used : List String)
    (h : (analyzeModel rt parseFn cfg (cleanModel rt parseFn cfg files used).2
        used).unusedSelectors = []) :
    (cleanModel rt parseFn cfg (cleanModel rt parseFn cfg files used).2
        used).1.removedSelectors = [] ∧
      (cleanModel rt parseFn cfg (cleanModel rt parseFn cfg files used).2
          used).2 = (cleanModel rt parseFn cfg files used).2 :=
  cleanModel_no_unused rt parseFn cfg _ used h

/-- Witness for the amended C7: `.a{color:red}` with nothing used is fully
removed by the first run (the fallback deletes the whole rule span), the
cleaned file is empty, and the second run removes nothing. -/
theorem claim_C7_amended_witness :
    (cleanModel rtF c7bparse cfg0
        (cleanModel rtF c7bparse cfg0 [("a.css", c7bcss)] []).2
        []).1.removedSelectors = [] ∧
      (cleanModel rtF c7bparse cfg0
          (cleanModel rtF c7bparse cfg0 [("a.css", c7bcss)] []).2 []).2 =
        (cleanModel rtF c7bparse cfg0 [("a.css", c7bcss)] []).2 :=
  claim_C7_amended_idempotent_when_removed rtF c7bparse cfg0
    [("a.css", c7bcss)] [] (by decide)

/-- Claim C8 (confirmed): extraction is total per batch — in the shallow
embedding every run returns (throws are modelled by `Option`), a file whose
read fails (`none`) or whose content fails to parse (`parseFn c = none`)
contributes zero records, and the records of all other files of the batch
are returned unchanged: the batch never aborts because of one file. -/
theorem claim_C8_per_file_isolation (parseFn : String → Option (List CNode))
    (pre post : List (String × Option String)) (p : String)
    (bad : Option String) (h : ∀ c, bad = some c → parseFn c = none) :
    parseCSSFiles parseFn (pre ++ (p, bad) :: post) =
      parseCSSFiles parseFn pre ++ parseCSSFiles parseFn post := by
  have hmid : parseCSSFiles parseFn ((p, bad) :: post) =
      parseCSSFiles parseFn post := by
    cases bad with
    | none => rfl
    | some c => simp [parseCSSFiles, parseCSSContent, h c rfl]
  rw [parseCSSFiles_append, hmid]

/-- Witness for C8: a batch of a well-formed file, a file whose content
fails to parse, and a file whose read fails yields exactly the records of
the well-formed file. -/
theorem claim_C8_witness :
    parseCSSFiles c8parse
        [("a.css", some ".good\x7bcolor:red\x7d"), ("b.css", some "%%%"),
          ("c.css", none)] =
      parseCSSFiles c8parse [("a.css", some ".good\x7bcolor:red\x7d")] ++
        parseCSSFiles c8parse [("c.css", none)] :=
  claim_C8_per_file_isolation c8parse
    [("a.css", some ".good\x7bcolor:red\x7d")] [("c.css", none)] "b.css"
    (some "%%%") (fun c hc => by cases hc; rfl)

/-- Claim C9 counterexample: with the malformed whitelist pattern `/[/`
(every regex compilation failing) and one CSS file, the `analyze` trace
reads the CSS file and scans the source directory first and raises the
pattern error only during classification — a CSS read *precedes* the
pattern error, refuting "surfaced before any file I/O". -/
theorem claim_C9_pattern_error_timing_cex :
    c9events =
      [AnalyzeEvent.readCSS "styles.css", AnalyzeEvent.scanSources "src",
        AnalyzeEvent.patternError "/[/"] ∧
    c9events.get? 0 = some (AnalyzeEvent.readCSS "styles.css") ∧
    c9events.get? 2 = some (AnalyzeEvent.patternError "/[/") := by
  decide

theorem events_segment_order (A B C : List AnalyzeEvent) (i j : Nat)
    (p f : String)
    (h1 : ∀ q, AnalyzeEvent.readCSS q ∉ B ++ C)
    (h2 : ∀ q, AnalyzeEvent.patternError q ∉ A ++ B)
    (hi : (A ++ B ++ C).get? i = some (AnalyzeEvent.patternError p))
    (hj : (A ++ B ++ C).get? j = some (AnalyzeEvent.readCSS f)) : j < i := by
  have hj' : j < A.length := by
    by_contra hge
    push_neg at hge
    rw [List.append_assoc, List.get?_append_right hge] at hj
    exact h1 f (List.get?_mem hj)
  have hi' : ¬ i < (A ++ B).length := by
    intro hlt
    rw [List.get?_append hlt] at hi
    exact h2 p (List.get?_mem hi)
  have hAB : (A ++ B).length = A.length + B.length := List.length_append _ _
  omega

/-- Claim C9 amended: the malformed-pattern error is raised during
classification and surfaces to the caller only *after* all configured CSS
files have been read and parsed (and the source directories scanned): in
every `analyze` trace, every CSS-read event strictly precedes any
pattern-error event. -/
theorem claim_C9_amended_error_after_reads
    (compile : String → Option (String → Bool))
    (parseFn : String → Option (List CNode)) (cfg : Config)
    (cssFiles : List (String × Option String)) (dirs : List String)
    (used : List String) (i j : Nat) (p f : String)
    (hi : (analyzeEvents compile parseFn cfg cssFiles dirs used).get? i =
      some (AnalyzeEvent.patternError p))
    (hj : (analyzeEvents compile parseFn cfg cssFiles dirs used).get? j =
      some (AnalyzeEvent.readCSS f)) : j < i := by
  refine events_segment_order (cssFiles.map fun g => AnalyzeEvent.readCSS g.1)
    (dirs.map AnalyzeEvent.scanSources) _ i j p f ?_ ?_ hi hj
  · intro q hq
    rcases List.mem_append.mp hq with hB | hC
    · obtain ⟨d, _, hd⟩ := List.mem_map.mp hB
      exact AnalyzeEvent.noConfusion hd
    · revert hC
      cases analyzeUsageE compile cfg used (parseCSSFiles parseFn cssFiles) with
      | error e => intro hC; rcases List.mem_singleton.mp hC with h; exact AnalyzeEvent.noConfusion h
      | ok v => intro hC; exact (List.not_mem_nil _ hC)
  · intro q hq
    rcases List.mem_append.mp hq with hA | hB
    · obtain ⟨d, _, hd⟩ := List.mem_map.mp hA
      exact AnalyzeEvent.noConfusion hd
    · obtain ⟨d, _, hd⟩ := List.mem_map.mp hB
      exact AnalyzeEvent.noConfusion hd

/-- Witness for the amended C9: in the concrete C9 trace the pattern error
sits at index 2, the CSS read at index 0, and indeed 0 < 2. -/
theorem claim_C9_amended_witness : (0 : Nat) < 2 :=
  claim_C9_amended_error_after_reads badCompile c9parse c9cfg
    [("styles.css", some c9css)] ["src"] [] 2 0 "/[/" "styles.css"
    (by decide) (by decide)
